import Mathlib

/-!
Verification of the conversation-context classifier and prompt builder of
the ThinkFirst AI educational chat assistant
(src/functions/src/gemini/geminiService.ts, final draft: `analyzeContext`
at lines 494-693 and the system-prompt construction inside `chat` at
lines 797-852).

Embedding conventions: JavaScript strings are modelled as Lean `String`
(a list of characters); `String.prototype.includes`, `startsWith`,
`split(" ")`, `trim` and `toLowerCase` are embedded as structurally
recursive functions on the character list, matching the JavaScript
semantics on the code points involved; JavaScript `length` is the
character count.  The JavaScript value stored in `currentTopic` is
modelled by `TopicV`, which distinguishes a string, `null` and
`undefined`, because the back-reference rule of `analyzeContext` can
produce `undefined`.  JavaScript truthiness of that value (empty string,
`null` and `undefined` are falsy) is modelled by `TopicV.truthy`.
-/

set_option maxRecDepth 16384

/-- Embedding of JavaScript `String.prototype.startsWith` on char lists. -/
def seqStarts : List Char → List Char → Bool
  | [], _ => true
  | _ :: _, [] => false
  | a :: as, b :: bs => a == b && seqStarts as bs

/-- Embedding of JavaScript `String.prototype.includes` on char lists:
`seqContains needle hay` is true iff `needle` occurs contiguously in `hay`. -/
def seqContains (needle : List Char) : List Char → Bool
  | [] => seqStarts needle []
  | c :: rest => seqStarts needle (c :: rest) || seqContains needle rest

/-- JavaScript `hay.includes(sub)`. -/
def jsIncludes (hay sub : String) : Bool := seqContains sub.data hay.data

/-- JavaScript `hay.startsWith(sub)`. -/
def jsStartsWith (hay sub : String) : Bool := seqStarts sub.data hay.data

/-- JavaScript `String.prototype.toLowerCase` (code-point wise). -/
def jsLower (s : String) : String := String.mk (s.data.map Char.toLower)

/-- JavaScript `String.prototype.trim`: drop leading and trailing whitespace. -/
def jsTrim (s : String) : String :=
  String.mk (((s.data.dropWhile Char.isWhitespace).reverse.dropWhile
    Char.isWhitespace).reverse)

/-- Embedding of JavaScript `s.split(sep)` for a one-character separator:
splits at every occurrence, keeping empty fields, and yields `[""]` on the
empty string. -/
def splitOnChar (sep : Char) : List Char → List (List Char)
  | [] => [[]]
  | c :: rest =>
    let r := splitOnChar sep rest
    if c == sep then [] :: r
    else
      match r with
      | [] => [[c]]
      | h :: t => (c :: h) :: t

/-- The JavaScript value held by the `currentTopic` field: a string,
`null`, or `undefined`. -/
inductive TopicV where
  | str : String → TopicV
  | null : TopicV
  | undef : TopicV
deriving DecidableEq

/-- JavaScript truthiness of a `currentTopic` value: a string is truthy
iff non-empty; `null` and `undefined` are falsy. -/
def TopicV.truthy : TopicV → Bool
  | .str s => !(s == "")
  | .null => false
  | .undef => false

/-- Whether the value satisfies the declared type `string | null` of
`ConversationContext.currentTopic`. -/
def TopicV.isStringOrNull : TopicV → Bool
  | .str _ => true
  | .null => true
  | .undef => false

/-- The `ConversationContext` interface of geminiService.ts (lines 488-492). -/
structure ConversationContext where
  currentTopic : TopicV
  attemptCount : Nat
  isLearningMode : Bool
deriving DecidableEq

/-- One entry of `conversationHistory`: a role and a text. -/
structure ChatMsg where
  role : String
  text : String
deriving DecidableEq

/-- The `weatherPatterns` list of `analyzeContext`. -/
def weatherPatterns : List String :=
  ["weather", "temperature", "how hot", "how cold", "climate", "forecast"]

/-- The `newsPatterns` list of `analyzeContext`. -/
def newsPatterns : List String :=
  ["news", "today\x27s news", "latest news", "current events", "headlines",
   "what\x27s happening", "news update"]

/-- The `solutionRequestPhrases` list of `analyzeContext`. -/
def solutionRequestPhrases : List String :=
  ["give me the answer", "give the answer", "just give me", "give me solution",
   "give the solution", "show me the answer", "show the solution",
   "what is the solution", "what\x27s the solution", "tell me the solution",
   "just show me", "just tell me"]

/-- The `attemptPhrases` list of `analyzeContext`. -/
def attemptPhrases : List String :=
  ["i tried", "i think", "maybe", "is it", "would it be", "should i", "idk",
   "i don\x27t know", "not sure", "i\x27m stuck", "can\x27t figure"]

/-- The `backToPreviousPhrases` list of `analyzeContext`. -/
def backToPreviousPhrases : List String :=
  ["back to", "return to", "again about", "still don\x27t get"]

/-- The `learningKeywords` list of `analyzeContext`. -/
def learningKeywords : List String :=
  ["how do i", "how to", "how about", "what about", "explain", "solve",
   "algorithm for", "solution for", "implement"]

/-- The `followUpKeywords` list of `analyzeContext`. -/
def followUpKeywords : List String :=
  ["time complexity", "space complexity", "complexity", "why does this",
   "why is", "can you explain more", "what do you mean", "how does that",
   "give me a hint", "give hint", "another hint"]

/-- The `chatKeywords` list of `analyzeContext`. -/
def chatKeywords : List String :=
  ["hello", "hi", "hey", "thanks", "thank you", "okay", "ok", "got it", "cool"]

/-- The `stopWords` list of the nested `extractTopic` helper. -/
def stopWords : List String :=
  ["how", "to", "the", "a", "an", "what", "is", "explain", "can", "you", "i",
   "do", "about", "for"]

/-- The lowercased, trimmed message computed at the top of `analyzeContext`. -/
def msgLowerOf (message : String) : String := jsTrim (jsLower message)

/-- The `isWeatherRequest` flag of `analyzeContext`. -/
def isWeatherRequest (msgLower : String) : Bool :=
  weatherPatterns.any (fun p => jsIncludes msgLower p)

/-- The `isNewsRequest` flag of `analyzeContext`. -/
def isNewsRequest (msgLower : String) : Bool :=
  newsPatterns.any (fun p => jsIncludes msgLower p)

/-- The `isAskingForSolution` flag of `analyzeContext`. -/
def isAskingForSolution (msgLower : String) : Bool :=
  solutionRequestPhrases.any (fun p => jsIncludes msgLower p)

/-- The `isGenuineAttempt` flag of `analyzeContext`. -/
def isGenuineAttempt (msgLower : String) : Bool :=
  attemptPhrases.any (fun p => jsIncludes msgLower p)

/-- The `isReturningToPrevious` flag of `analyzeContext`. -/
def isReturningToPrevious (msgLower : String) : Bool :=
  backToPreviousPhrases.any (fun p => jsIncludes msgLower p)

/-- The `isNewLearningQuestion` flag of `analyzeContext`. -/
def isNewLearningQuestion (msgLower : String) : Bool :=
  learningKeywords.any (fun kw => jsIncludes msgLower kw)

/-- The `isFollowUp` flag of `analyzeContext`. -/
def isFollowUp (msgLower : String) : Bool :=
  followUpKeywords.any (fun kw => jsIncludes msgLower kw)

/-- The `isGeneralChat` flag of `analyzeContext`: an exact keyword match, or
the keyword followed by a space or an exclamation mark. -/
def isGeneralChat (msgLower : String) : Bool :=
  chatKeywords.any (fun kw =>
    msgLower == kw || jsStartsWith msgLower (kw ++ " ")
      || jsStartsWith msgLower (kw ++ "!"))

/-- The nested `extractTopic` helper of `analyzeContext` (lines 596-601):
lowercase the message, split at each space character, discard stop words
and words of length at most 3, join the first three surviving tokens with
spaces. -/
def extractTopic (msg : String) : String :=
  let words := (splitOnChar ' ' (jsLower msg).data).map String.mk
  let meaningful :=
    words.filter (fun w => !(stopWords.contains w) && decide (3 < w.data.length))
  String.intercalate " " (meaningful.take 3)

/-- The `previousTopics` list computed in the back-reference branch of
`analyzeContext` (lines 625-628): topics extracted from prior user
messages, empty extractions dropped. -/
def previousTopicsOf (history : List ChatMsg) : List String :=
  ((history.filter (fun m => m.role == "user")).map
    (fun m => extractTopic m.text)).filter (fun t => decide (0 < t.data.length))

/-- First space-separated word of a topic string (JavaScript
`topic.split(" ")[0]`). -/
def firstWord (t : String) : String :=
  String.mk ((splitOnChar ' ' t.data).headD [])

/-- The `relevantTopic` value of the back-reference branch (lines 631-633):
the first previously extracted topic whose first word occurs in the
message, or, failing that, the element at index `length - 2` of the topic
list, which is JavaScript `undefined` when the list has fewer than two
elements. -/
def relevantTopicOf (msgLower : String) (previousTopics : List String) : TopicV :=
  match previousTopics.find? (fun t => jsIncludes msgLower (firstWord t)) with
  | some t => TopicV.str t
  | none =>
    if 2 ≤ previousTopics.length then
      TopicV.str (previousTopics.getD (previousTopics.length - 2) "")
    else TopicV.undef

/-- The `analyzeContext` function of geminiService.ts (lines 494-693):
ordered rule evaluation, first matching rule wins.  Rules 4 to 8 of the
source all require a truthy part of `previousContext` (reached through
optional chaining, so absent context fails every one of them), and the
default rule returns `previousContext || zero`, which is why the tail is
a single match on `previousContext`. -/
def analyzeContext (message : String) (conversationHistory : List ChatMsg)
    (previousContext : Option ConversationContext) : ConversationContext :=
  let msgLower := msgLowerOf message
  if isWeatherRequest msgLower || isNewsRequest msgLower then
    ⟨TopicV.null, 0, false⟩
  else if isGeneralChat msgLower && !isNewLearningQuestion msgLower then
    ⟨TopicV.null, 0, false⟩
  else if isNewLearningQuestion msgLower && !isReturningToPrevious msgLower then
    ⟨TopicV.str (extractTopic message), 0, true⟩
  else if isReturningToPrevious msgLower
      && decide (0 < conversationHistory.length)
      && decide (0 < (previousTopicsOf conversationHistory).length) then
    ⟨relevantTopicOf msgLower (previousTopicsOf conversationHistory), 0, true⟩
  else
    match previousContext with
    | some p =>
      if isFollowUp msgLower && p.currentTopic.truthy then
        ⟨p.currentTopic, p.attemptCount, true⟩
      else if isAskingForSolution msgLower && p.isLearningMode then
        ⟨p.currentTopic, max p.attemptCount 3, true⟩
      else if isGenuineAttempt msgLower && p.isLearningMode
          && p.currentTopic.truthy then
        ⟨p.currentTopic, p.attemptCount + 1, true⟩
      else if p.isLearningMode && p.currentTopic.truthy && !isFollowUp msgLower
          && !isAskingForSolution msgLower && decide (10 < message.data.length) then
        ⟨p.currentTopic, p.attemptCount + 1, true⟩
      else p
    | none => ⟨TopicV.null, 0, false⟩

/-- Splitting a char list at every whitespace character.  This follows the
claim wording for topic extraction ("splits it on whitespace"), to be
compared against the source, which splits at the space character only. -/
def splitOnWhite : List Char → List (List Char)
  | [] => [[]]
  | c :: rest =>
    let r := splitOnWhite rest
    if c.isWhitespace then [] :: r
    else
      match r with
      | [] => [[c]]
      | h :: t => (c :: h) :: t

/-- Topic extraction as worded by the claim: lowercase, split on
whitespace, discard stop words and words of length at most 3, join the
first three remaining tokens with spaces. -/
def extractTopicWhitespaceSpec (msg : String) : String :=
  let words := (splitOnWhite (jsLower msg).data).map String.mk
  let meaningful :=
    words.filter (fun w => !(stopWords.contains w) && decide (3 < w.data.length))
  String.intercalate " " (meaningful.take 3)

/-- Topic extraction as worded by the amended claim: lowercase, split at
each space character, keep words that are longer than 3 characters and
are not stop words, join the first three with spaces. -/
def extractTopicSpaceSpec (msg : String) : String :=
  let words := (splitOnChar ' ' (jsLower msg).data).map String.mk
  let meaningful :=
    words.filter (fun w => decide (3 < w.data.length) && !(stopWords.contains w))
  String.intercalate " " (meaningful.take 3)

/-- How JavaScript renders the `currentTopic` value inside a template
literal: `null` prints as "null" and `undefined` as "undefined". -/
def renderTopic : TopicV → String
  | .str s => s
  | .null => "null"
  | .undef => "undefined"

/-- The base system prompt built in `chat` (lines 799-811), before any
learning-mode block is appended. -/
def basePrompt : String :=
  "You are ThinkFirst AI, an intelligent educational assistant that adapts to the user\x27s needs.\n\n**YOUR CORE RULES:**\n1. **RESPOND DIRECTLY** - Give your answer immediately without explaining your thought process\n2. **NO META-COMMENTARY** - Don\x27t say things like \"Here\x27s how to proceed\"\n3. **BE NATURAL** - Talk like a friendly tutor, not a robot\n4. **USE REAL-TIME DATA** - When real-time data is provided in [REAL-TIME DATA] sections, YOU MUST use it naturally in your response. NEVER say \"I don\x27t have access to real-time data\" when data is provided.\n\n**BEHAVIOR:**\n\n**For General Chat:**\n- Answer naturally and conversationally\n- Be friendly and helpful"

/-- The learning-mode header appended in `chat` (lines 816-823). -/
def modeHeader (topic : TopicV) (attemptCount : Nat) : String :=
  "\n\n**CURRENT MODE: LEARNING MODE**\nTopic: \"" ++ renderTopic topic
    ++ "\"\nAttempt: " ++ toString attemptCount
    ++ "\n\n**PROGRESSIVE GUIDANCE:**\n"

/-- The guidance tier appended when `attemptCount === 0` (lines 825-829). -/
def tierFirst : String :=
  "- This is the FIRST interaction with this topic\n- Give a conceptual hint that makes them think\n- Ask guiding questions to assess their understanding\n- Set isHint: true, isSolution: false, mode: \"learning\""

/-- The guidance tier appended when `attemptCount === 1` (lines 830-834). -/
def tierSecond (attemptCount : Nat) : String :=
  "- This is attempt " ++ toString attemptCount
    ++ " (SECOND attempt)\n- Provide stronger hints with techniques or approaches\n- Point toward relevant concepts/algorithms\n- Set isHint: true, isSolution: false, mode: \"learning\""

/-- The guidance tier appended when `attemptCount === 2` (lines 835-839). -/
def tierThird (attemptCount : Nat) : String :=
  "- This is attempt " ++ toString attemptCount
    ++ " (THIRD attempt)\n- Give pseudocode or step-by-step roadmap\n- Be explicit about the approach\n- Set isHint: true, isSolution: false, mode: \"learning\""

/-- The guidance tier appended for any other `attemptCount` (lines 840-846). -/
def tierFourth (attemptCount : Nat) : String :=
  "- This is attempt " ++ toString attemptCount
    ++ " (FOURTH+ attempt or direct solution request)\n- Provide COMPLETE solution with detailed explanation\n- Include code examples with proper syntax\n- Explain WHY each step works\n- Set isHint: false, isSolution: true, mode: \"learning\""

/-- The tier selection of `chat` (lines 825-846): an if-else chain keyed
on `attemptCount`. -/
def tierBlockOf (attemptCount : Nat) : String :=
  if attemptCount == 0 then tierFirst
  else if attemptCount == 1 then tierSecond attemptCount
  else if attemptCount == 2 then tierThird attemptCount
  else tierFourth attemptCount

/-- The trailing note appended in learning mode (lines 848-850). -/
def importantNote : String :=
  "\n\n**IMPORTANT:** If user asks a follow-up question about complexity or clarification, answer directly without treating it as a new attempt."

/-- The complete system instruction of `chat` (lines 797-852): the base
prompt, plus the learning-mode block exactly when the analyzed context is
in learning mode. -/
def systemPromptOf (ctx : ConversationContext) : String :=
  basePrompt
    ++ (if ctx.isLearningMode then
          modeHeader ctx.currentTopic ctx.attemptCount
            ++ tierBlockOf ctx.attemptCount ++ importantNote
        else "")

/-- The directive line shared by the three hint tiers. -/
def hintDirective : String := "Set isHint: true, isSolution: false"

/-- The directive line of the full-solution tier. -/
def solutionDirective : String := "Set isHint: false, isSolution: true"

/-- An occurrence in the right part of an appended char list is an
occurrence in the whole. -/
theorem seqContains_append (n x y : List Char) (h : seqContains n y = true) :
    seqContains n (x ++ y) = true := by
  induction x with
  | nil => simpa using h
  | cons c t ih =>
    simp only [List.cons_append, seqContains, Bool.or_eq_true]
    exact Or.inr ih

/-- A substring of the right part of an appended string is a substring of
the whole. -/
theorem jsIncludes_append (x y p : String) (h : jsIncludes y p = true) :
    jsIncludes (x ++ y) p = true := by
  simp only [jsIncludes, String.data_append] at h ⊢
  exact seqContains_append _ _ _ h

/-- Appending the empty string is the identity. -/
theorem strAppendEmpty (s : String) : s ++ "" = s := by
  apply String.ext
  simp [String.data_append]

/-- Every run of `analyzeContext` either returns the zero context, or a
context in learning mode, or the supplied previous context unchanged. -/
theorem analyzeContext_cases (message : String) (history : List ChatMsg)
    (prev : Option ConversationContext) :
    analyzeContext message history prev = ⟨TopicV.null, 0, false⟩
    ∨ (analyzeContext message history prev).isLearningMode = true
    ∨ ∃ p, prev = some p ∧ analyzeContext message history prev = p := by
  simp only [analyzeContext]
  repeat' split
  all_goals
    first
      | exact Or.inl rfl
      | exact Or.inr (Or.inl rfl)
      | exact Or.inr (Or.inr ⟨_, rfl, rfl⟩)

/-- C1, counterexample.  The concrete scenario of the claim fails on the
code: the message "what about time complexity?" contains the follow-up
marker "time complexity" and the previous topic is non-null, yet the
message also contains "what about", a new-learning-question keyword, so
the higher-priority new-question rule fires first and the classifier
returns the freshly extracted topic "time complexity?" with
`attemptCount` 0 instead of the unchanged previous context with
`attemptCount` 1. -/
theorem followup_attempts_counterexample :
    isFollowUp (msgLowerOf "what about time complexity?") = true
    ∧ (⟨TopicV.str "merge sort", 1, true⟩ : ConversationContext).currentTopic
        = TopicV.str "merge sort"
    ∧ analyzeContext "what about time complexity?" []
        (some ⟨TopicV.str "merge sort", 1, true⟩)
      = ⟨TopicV.str "time complexity?", 0, true⟩
    ∧ decide ((analyzeContext "what about time complexity?" []
        (some ⟨TopicV.str "merge sort", 1, true⟩)).attemptCount = 1) = false := by
  decide

/-- C1 (amended): for every message containing a follow-up marker phrase
that triggers no higher-priority rule (no weather or news marker, not the
general-chat rule, no new-learning-question keyword, not the
back-reference rule), and every previous context whose `currentTopic` is
a non-empty string, the classifier carries topic and `attemptCount`
forward unchanged and stays in learning mode. -/
theorem followup_carries_context (message : String) (history : List ChatMsg)
    (p : ConversationContext)
    (h1 : isWeatherRequest (msgLowerOf message) = false)
    (h2 : isNewsRequest (msgLowerOf message) = false)
    (h3 : (isGeneralChat (msgLowerOf message)
        && !isNewLearningQuestion (msgLowerOf message)) = false)
    (h4 : (isNewLearningQuestion (msgLowerOf message)
        && !isReturningToPrevious (msgLowerOf message)) = false)
    (h5 : (isReturningToPrevious (msgLowerOf message)
        && decide (0 < history.length)
        && decide (0 < (previousTopicsOf history).length)) = false)
    (h6 : isFollowUp (msgLowerOf message) = true)
    (h7 : p.currentTopic.truthy = true) :
    analyzeContext message history (some p)
      = ⟨p.currentTopic, p.attemptCount, true⟩ := by
  simp only [analyzeContext]
  simp [h1, h2, h3, h4, h5, h6, h7]

/-- C1, witness: a pure follow-up message carries the context through
unchanged. -/
theorem followup_carries_context_witness :
    analyzeContext "why is that so" [] (some ⟨TopicV.str "merge sort", 1, true⟩)
      = ⟨TopicV.str "merge sort", 1, true⟩ :=
  followup_carries_context "why is that so" [] ⟨TopicV.str "merge sort", 1, true⟩
    (by decide) (by decide) (by decide) (by decide) (by decide) (by decide)
    (by decide)

/-- C2 (confirmed): any message whose lowercased, trimmed text contains a
weather or news marker phrase yields exactly the zero context
regardless of history and previous context. -/
theorem realtime_override (message : String) (history : List ChatMsg)
    (prev : Option ConversationContext)
    (h : isWeatherRequest (msgLowerOf message) = true
      ∨ isNewsRequest (msgLowerOf message) = true) :
    analyzeContext message history prev = ⟨TopicV.null, 0, false⟩ := by
  simp only [analyzeContext]
  rcases h with h | h <;> simp [h]

/-- C2, witness: concrete scenario 5 of the specification. -/
theorem realtime_override_witness :
    analyzeContext "what\x27s the weather in Paris" []
      (some ⟨TopicV.str "merge sort", 2, true⟩)
      = ⟨TopicV.null, 0, false⟩ :=
  realtime_override _ _ _ (Or.inl (by decide))

/-- C3, counterexample.  The invariant quantifies over every input, but
`previousContext` is caller-supplied: a previous context that itself
violates the invariant is returned unchanged by the default rule when the
message matches nothing, so the output has `isLearningMode = false` with
a non-null topic. -/
theorem learning_mode_invariant_counterexample :
    analyzeContext "zzzz" [] (some ⟨TopicV.str "merge sort", 0, false⟩)
      = ⟨TopicV.str "merge sort", 0, false⟩
    ∧ (analyzeContext "zzzz" []
        (some ⟨TopicV.str "merge sort", 0, false⟩)).isLearningMode = false
    ∧ decide ((analyzeContext "zzzz" []
        (some ⟨TopicV.str "merge sort", 0, false⟩)).currentTopic
          = TopicV.null) = false := by
  decide

/-- C3 (amended): the classifier preserves the invariant rather than
establishing it: whenever the supplied previous context is absent or
itself satisfies `isLearningMode = false → currentTopic = null`, the
returned context satisfies it as well. -/
theorem learning_mode_invariant (message : String) (history : List ChatMsg)
    (prev : Option ConversationContext)
    (hprev : ∀ p, prev = some p → p.isLearningMode = false →
      p.currentTopic = TopicV.null)
    (hlm : (analyzeContext message history prev).isLearningMode = false) :
    (analyzeContext message history prev).currentTopic = TopicV.null := by
  rcases analyzeContext_cases message history prev with h | h | ⟨p, hp, h⟩
  · rw [h]
  · rw [h] at hlm
    cases hlm
  · rw [h]
    rw [h] at hlm
    exact hprev p hp hlm

/-- C3, witness: starting from the zero context, a neutral message keeps
the topic null. -/
theorem learning_mode_invariant_witness :
    (analyzeContext "zzzz" [] (some ⟨TopicV.null, 0, false⟩)).currentTopic
      = TopicV.null :=
  learning_mode_invariant "zzzz" [] (some ⟨TopicV.null, 0, false⟩)
    (fun p hp => by cases hp; intro _; rfl) (by decide)

/-- C4 (confirmed): a direct solution request that triggers no earlier
rule, against a previous context in learning mode, carries the topic
forward unchanged and jumps `attemptCount` to `max(previous, 3)`,
staying in learning mode. -/
theorem solution_request_jumps (message : String) (history : List ChatMsg)
    (p : ConversationContext)
    (h1 : isWeatherRequest (msgLowerOf message) = false)
    (h2 : isNewsRequest (msgLowerOf message) = false)
    (h3 : (isGeneralChat (msgLowerOf message)
        && !isNewLearningQuestion (msgLowerOf message)) = false)
    (h4 : (isNewLearningQuestion (msgLowerOf message)
        && !isReturningToPrevious (msgLowerOf message)) = false)
    (h5 : (isReturningToPrevious (msgLowerOf message)
        && decide (0 < history.length)
        && decide (0 < (previousTopicsOf history).length)) = false)
    (h6 : (isFollowUp (msgLowerOf message) && p.currentTopic.truthy) = false)
    (h7 : isAskingForSolution (msgLowerOf message) = true)
    (h8 : p.isLearningMode = true) :
    analyzeContext message history (some p)
      = ⟨p.currentTopic, max p.attemptCount 3, true⟩ := by
  simp only [analyzeContext]
  simp [h1, h2, h3, h4, h5, h6, h7, h8]

/-- C4, witness: a solution request with prior `attemptCount = 0` yields
`attemptCount = 3` (concrete scenario 4 of the specification with prior
count 0). -/
theorem solution_request_jumps_witness :
    analyzeContext "just give me the answer" []
      (some ⟨TopicV.str "merge sort", 0, true⟩)
      = ⟨TopicV.str "merge sort", 3, true⟩ := by
  have h := solution_request_jumps "just give me the answer" []
    ⟨TopicV.str "merge sort", 0, true⟩ (by decide) (by decide) (by decide)
    (by decide) (by decide) (by decide) (by decide) (by decide)
  simpa using h

/-- C5 (confirmed): when the context is in learning mode, the system
instruction is the base prompt followed by the learning header, exactly
one guidance tier keyed strictly on `attemptCount` (the four disjuncts
are mutually exclusive and cover all counts), and the follow-up note;
every tier selected for `attemptCount` at most 2 directs
`isHint: true, isSolution: false` and not the solution directive, and the
tier selected for `attemptCount` at least 3 directs
`isHint: false, isSolution: true`.  When the context is not in learning
mode, the instruction is the base prompt alone and contains no
progressive-guidance block. -/
theorem prompt_tiering (ctx : ConversationContext) :
    (ctx.isLearningMode = false →
      systemPromptOf ctx = basePrompt
      ∧ jsIncludes (systemPromptOf ctx) "**PROGRESSIVE GUIDANCE:**" = false)
    ∧ (ctx.isLearningMode = true →
      systemPromptOf ctx
        = basePrompt ++ (modeHeader ctx.currentTopic ctx.attemptCount
            ++ tierBlockOf ctx.attemptCount ++ importantNote)
      ∧ ((ctx.attemptCount = 0 ∧ tierBlockOf ctx.attemptCount = tierFirst)
        ∨ (ctx.attemptCount = 1 ∧ tierBlockOf ctx.attemptCount = tierSecond 1)
        ∨ (ctx.attemptCount = 2 ∧ tierBlockOf ctx.attemptCount = tierThird 2)
        ∨ (3 ≤ ctx.attemptCount
            ∧ tierBlockOf ctx.attemptCount = tierFourth ctx.attemptCount))
      ∧ (ctx.attemptCount ≤ 2 →
          jsIncludes (tierBlockOf ctx.attemptCount) hintDirective = true
          ∧ jsIncludes (tierBlockOf ctx.attemptCount) solutionDirective = false)
      ∧ (3 ≤ ctx.attemptCount →
          jsIncludes (tierBlockOf ctx.attemptCount) solutionDirective = true)) := by
  constructor
  · intro h
    have hp : systemPromptOf ctx = basePrompt := by
      simp [systemPromptOf, h, strAppendEmpty]
    refine ⟨hp, ?_⟩
    rw [hp]
    decide
  · intro h
    refine ⟨by simp [systemPromptOf, h], ?_, ?_, ?_⟩
    · rcases Nat.lt_or_ge ctx.attemptCount 3 with hlt | hge
      · interval_cases h : ctx.attemptCount
        · exact Or.inl ⟨rfl, rfl⟩
        · exact Or.inr (Or.inl ⟨rfl, rfl⟩)
        · exact Or.inr (Or.inr (Or.inl ⟨rfl, rfl⟩))
      · refine Or.inr (Or.inr (Or.inr ⟨hge, ?_⟩))
        obtain ⟨k, hk⟩ : ∃ k, ctx.attemptCount = k + 3 :=
          ⟨ctx.attemptCount - 3, by omega⟩
        rw [hk]
        rfl
    · intro hle
      interval_cases h : ctx.attemptCount
      · exact ⟨by decide, by decide⟩
      · exact ⟨by decide, by decide⟩
      · exact ⟨by decide, by decide⟩
    · intro hge
      obtain ⟨k, hk⟩ : ∃ k, ctx.attemptCount = k + 3 :=
        ⟨ctx.attemptCount - 3, by omega⟩
      rw [hk]
      show jsIncludes (tierFourth (k + 3)) solutionDirective = true
      unfold tierFourth
      exact jsIncludes_append _ _ _ (by decide)

/-- C5, witness: a learning-mode context at attempt 0 produces the base
prompt, the header, the first tier and the note, and that tier directs
the hint flags. -/
theorem prompt_tiering_witness :
    systemPromptOf ⟨TopicV.str "merge sort", 0, true⟩
      = basePrompt ++ (modeHeader (TopicV.str "merge sort") 0
          ++ tierBlockOf 0 ++ importantNote)
    ∧ jsIncludes (tierBlockOf 0) hintDirective = true := by
  have h := prompt_tiering ⟨TopicV.str "merge sort", 0, true⟩
  exact ⟨(h.2 rfl).1, ((h.2 rfl).2.2.1 (by decide)).1⟩

/-- C6, counterexample.  The claim says topic extraction splits on
whitespace, but the code splits at the space character only: on a message
containing a tab, the tab-joined token survives whole, so the code and
the claimed whitespace-splitting extraction disagree. -/
theorem topic_extraction_whitespace_counterexample :
    extractTopic "merge\tsort algorithm implementation"
      = "merge\tsort algorithm implementation"
    ∧ extractTopicWhitespaceSpec "merge\tsort algorithm implementation"
      = "merge sort algorithm"
    ∧ decide (extractTopic "merge\tsort algorithm implementation"
        = extractTopicWhitespaceSpec "merge\tsort algorithm implementation")
      = false := by
  decide

/-- C6 (amended): topic extraction lowercases the message, splits it at
each space character (not at other whitespace), discards stop words and
all words of length at most 3, and joins the first three remaining tokens
with spaces; consequently classifying "how do I implement merge sort"
with empty history and no previous context returns the context with topic
"implement merge sort", zero attempts, learning mode on. -/
theorem topic_extraction_space_split (msg : String) :
    extractTopic msg = extractTopicSpaceSpec msg
    ∧ analyzeContext "how do I implement merge sort" [] none
      = ⟨TopicV.str "implement merge sort", 0, true⟩ := by
  constructor
  · simp only [extractTopic, extractTopicSpaceSpec]
    congr 2
    exact List.filter_congr (fun w _ => by rw [Bool.and_comm])
  · decide

/-- C7 (confirmed): a message containing an attempt or uncertainty marker
that triggers no earlier rule, against a previous context in learning
mode whose topic is a non-empty string, keeps the topic, increments
`attemptCount` by exactly one, and stays in learning mode. -/
theorem genuine_attempt_increments (message : String) (history : List ChatMsg)
    (p : ConversationContext)
    (h1 : isWeatherRequest (msgLowerOf message) = false)
    (h2 : isNewsRequest (msgLowerOf message) = false)
    (h3 : (isGeneralChat (msgLowerOf message)
        && !isNewLearningQuestion (msgLowerOf message)) = false)
    (h4 : (isNewLearningQuestion (msgLowerOf message)
        && !isReturningToPrevious (msgLowerOf message)) = false)
    (h5 : (isReturningToPrevious (msgLowerOf message)
        && decide (0 < history.length)
        && decide (0 < (previousTopicsOf history).length)) = false)
    (h6 : (isFollowUp (msgLowerOf message) && p.currentTopic.truthy) = false)
    (h7 : (isAskingForSolution (msgLowerOf message) && p.isLearningMode) = false)
    (h8 : isGenuineAttempt (msgLowerOf message) = true)
    (h9 : p.isLearningMode = true)
    (h10 : p.currentTopic.truthy = true) :
    analyzeContext message history (some p)
      = ⟨p.currentTopic, p.attemptCount + 1, true⟩ := by
  simp only [h10, Bool.and_true] at h6
  simp only [h9, Bool.and_true] at h7
  simp only [analyzeContext]
  simp [h1, h2, h3, h4, h5, h6, h7, h8, h9, h10]

/-- C7, witness: concrete scenario 2 of the specification. -/
theorem genuine_attempt_increments_witness :
    analyzeContext "I tried recursion but got stuck" []
      (some ⟨TopicV.str "merge sort", 0, true⟩)
      = ⟨TopicV.str "merge sort", 1, true⟩ :=
  genuine_attempt_increments "I tried recursion but got stuck" []
    ⟨TopicV.str "merge sort", 0, true⟩ (by decide) (by decide) (by decide)
    (by decide) (by decide) (by decide) (by decide) (by decide) (by decide)
    (by decide)

/-- C8, counterexample.  With extracted topics, oldest to newest,
["quick sorting algorithm", "binary search trees", "binary search trees"]
and a back-reference message matching no first word, the code takes the
element at index `length - 2` of the raw list, which is the duplicated
"binary search trees", whereas the second-most-recent distinct topic is
"quick sorting algorithm". -/
theorem back_reference_distinct_counterexample :
    previousTopicsOf
        [⟨"user", "quick sorting algorithm details"⟩,
         ⟨"user", "binary search trees"⟩,
         ⟨"user", "binary search trees"⟩]
      = ["quick sorting algorithm", "binary search trees",
         "binary search trees"]
    ∧ (previousTopicsOf
        [⟨"user", "quick sorting algorithm details"⟩,
         ⟨"user", "binary search trees"⟩,
         ⟨"user", "binary search trees"⟩]).find?
          (fun t => jsIncludes (msgLowerOf "still don\x27t get it") (firstWord t))
      = none
    ∧ analyzeContext "still don\x27t get it"
        [⟨"user", "quick sorting algorithm details"⟩,
         ⟨"user", "binary search trees"⟩,
         ⟨"user", "binary search trees"⟩] none
      = ⟨TopicV.str "binary search trees", 0, true⟩
    ∧ decide ((analyzeContext "still don\x27t get it"
        [⟨"user", "quick sorting algorithm details"⟩,
         ⟨"user", "binary search trees"⟩,
         ⟨"user", "binary search trees"⟩] none).currentTopic
          = TopicV.str "quick sorting algorithm") = false := by
  decide

/-- C8 (amended): for every back-reference message that triggers no
higher-priority rule, with non-empty history yielding at least one
extracted topic, the classifier returns topic, zero attempts and learning
mode, where the topic is the oldest previously extracted topic whose
first word appears in the message when one exists, and otherwise the
second-to-last entry of the extracted topic list counting duplicates,
defined when that list has at least two entries. -/
theorem back_reference_returns_topic (message : String) (history : List ChatMsg)
    (prev : Option ConversationContext)
    (h1 : isWeatherRequest (msgLowerOf message) = false)
    (h2 : isNewsRequest (msgLowerOf message) = false)
    (h3 : (isGeneralChat (msgLowerOf message)
        && !isNewLearningQuestion (msgLowerOf message)) = false)
    (h4 : isReturningToPrevious (msgLowerOf message) = true)
    (h5 : 0 < history.length)
    (h6 : 0 < (previousTopicsOf history).length) :
    analyzeContext message history prev
      = ⟨relevantTopicOf (msgLowerOf message) (previousTopicsOf history), 0, true⟩
    ∧ (∀ t, (previousTopicsOf history).find?
          (fun t => jsIncludes (msgLowerOf message) (firstWord t)) = some t →
        relevantTopicOf (msgLowerOf message) (previousTopicsOf history)
          = TopicV.str t)
    ∧ ((previousTopicsOf history).find?
          (fun t => jsIncludes (msgLowerOf message) (firstWord t)) = none →
        2 ≤ (previousTopicsOf history).length →
        relevantTopicOf (msgLowerOf message) (previousTopicsOf history)
          = TopicV.str ((previousTopicsOf history).getD
              ((previousTopicsOf history).length - 2) "")) := by
  refine ⟨?_, ?_, ?_⟩
  · simp only [analyzeContext]
    simp [h1, h2, h3, h4, h5, h6]
  · intro t ht
    simp [relevantTopicOf, ht]
  · intro hn h2le
    simp [relevantTopicOf, hn, h2le]

/-- C8, witness: a back-reference message whose text mentions the first
word of an earlier topic recovers that topic with attempts reset. -/
theorem back_reference_returns_topic_witness :
    analyzeContext "back to merge sort please"
        [⟨"user", "merge sort algorithm please"⟩] none
      = ⟨relevantTopicOf (msgLowerOf "back to merge sort please")
          (previousTopicsOf [⟨"user", "merge sort algorithm please"⟩]), 0, true⟩
    ∧ relevantTopicOf (msgLowerOf "back to merge sort please")
        (previousTopicsOf [⟨"user", "merge sort algorithm please"⟩])
      = TopicV.str "merge sort algorithm" := by
  have h := back_reference_returns_topic "back to merge sort please"
    [⟨"user", "merge sort algorithm please"⟩] none
    (by decide) (by decide) (by decide) (by decide) (by decide) (by decide)
  exact ⟨h.1, h.2.1 "merge sort algorithm" (by decide)⟩

/-- C9 (confirmed): a greeting or acknowledgement message that is not
simultaneously a new-learning question nor a weather or news request
resets to the zero context regardless of the previous context, and doing
so twice in a row, feeding the first output back in, yields the zero
context both times. -/
theorem greeting_reset_idempotent (message : String) (history : List ChatMsg)
    (prev : Option ConversationContext)
    (h1 : isGeneralChat (msgLowerOf message) = true)
    (h2 : isNewLearningQuestion (msgLowerOf message) = false)
    (h3 : isWeatherRequest (msgLowerOf message) = false)
    (h4 : isNewsRequest (msgLowerOf message) = false) :
    analyzeContext message history prev = ⟨TopicV.null, 0, false⟩
    ∧ analyzeContext message history
        (some (analyzeContext message history prev))
      = ⟨TopicV.null, 0, false⟩ := by
  have base : ∀ pr, analyzeContext message history pr
      = ⟨TopicV.null, 0, false⟩ := by
    intro pr
    simp only [analyzeContext]
    simp [h1, h2, h3, h4]
  exact ⟨base prev, base _⟩

/-- C9, witness: the greeting "hello" resets a learning context twice in
a row. -/
theorem greeting_reset_idempotent_witness :
    analyzeContext "hello" [] (some ⟨TopicV.str "merge sort", 2, true⟩)
      = ⟨TopicV.null, 0, false⟩
    ∧ analyzeContext "hello" []
        (some (analyzeContext "hello" []
          (some ⟨TopicV.str "merge sort", 2, true⟩)))
      = ⟨TopicV.null, 0, false⟩ :=
  greeting_reset_idempotent "hello" [] (some ⟨TopicV.str "merge sort", 2, true⟩)
    (by decide) (by decide) (by decide) (by decide)

/-- C10 (confirmed): there is an input at the public classifier interface
on which the back-reference rule produces a `currentTopic` that is
neither a string nor null: with exactly one prior user message carrying a
non-empty extractable topic and no first-word match, the fallback indexes
position `length - 2 = -1` of the topic list and the returned
`currentTopic` is the JavaScript value `undefined`, violating the
declared `string | null` type. -/
theorem back_reference_undefined_topic :
    analyzeContext "still don\x27t get it"
        [⟨"user", "binary search trees"⟩] none
      = ⟨TopicV.undef, 0, true⟩
    ∧ TopicV.isStringOrNull (analyzeContext "still don\x27t get it"
        [⟨"user", "binary search trees"⟩] none).currentTopic = false := by
  decide
